import Mathlib

/-!
Verification of the storm-tracker discovery/resolve/parse pipeline
(`src/fetcher.py`) against its natural-language specification.

Strings are modelled as `List Char`; Python floats are modelled as
rationals (`ℚ`), exact on the finite decimal literals the feed contains
(non-finite results of `float()` such as `inf`/`nan` are treated as
parse failures, and `str.isdigit`/`str.strip` are modelled on ASCII);
every call to `datetime.utcnow()` within one aggregation run is modelled
as a single explicit `now` parameter; the HTTP transport is modelled as
an oracle `fetch : List Char → Option (List Char)` where `none` stands
for any `requests` exception (transport failure or non-2xx status).
-/

/-- ASCII decimal digit test, the model of the character class `\d` and of
the per-character test behind Python's `str.isdigit` (ASCII fragment). -/
def isAsciiDigit (c : Char) : Bool := decide ('0' ≤ c ∧ c ≤ '9')

/-- Numeric value of an ASCII digit character. -/
def digitVal (c : Char) : ℕ := c.toNat - ('0').toNat

/-- Value of an all-digit token read in base 10, the model of Python `int`
on a string that passed `str.isdigit`. -/
def natOfDigits (l : List Char) : ℕ := l.foldl (fun a c => 10 * a + digitVal c) 0

/-- Model of Python `str.isdigit` (ASCII): nonempty and all digits. -/
def pyIsDigit (l : List Char) : Bool := !l.isEmpty && l.all isAsciiDigit

/-- Model of Python whitespace (`str.strip` / regex `\s`), ASCII fragment. -/
def isPySpace (c : Char) : Bool :=
  c = ' ' || c = '\t' || c = '\n' || c = '\r' || c = '\x0b' || c = '\x0c'

/-- Model of Python `str.strip()`: drop leading and trailing whitespace. -/
def pyStrip (l : List Char) : List Char :=
  ((l.dropWhile isPySpace).reverse.dropWhile isPySpace).reverse

/-- Model of Python `str.split(sep)` for a one-character separator:
keeps empty pieces, and yields `[[]]` on the empty string. -/
def splitChar (c : Char) : List Char → List (List Char)
  | [] => [[]]
  | x :: xs =>
    if x = c then [] :: splitChar c xs
    else
      match splitChar c xs with
      | h :: t => (x :: h) :: t
      | [] => [[x]]

/-- First `some` produced by `f` along a list, in list order: the model of
a for-loop that `break`s at the first success (and of ordered regex
alternation). -/
def firstSome {α β : Type} (f : α → Option β) : List α → Option β
  | [] => none
  | x :: xs =>
    match f x with
    | some b => some b
    | none => firstSome f xs

/-- Digit group with Python's underscore rule (an `_` must stand between
two digits): returns the accumulated value, the digit count and the rest. -/
def digitGroupAux : ℕ → ℕ → List Char → (ℕ × ℕ × List Char)
  | v, k, [] => (v, k, [])
  | v, k, c :: cs =>
    if isAsciiDigit c then digitGroupAux (10 * v + digitVal c) (k + 1) cs
    else if c = '_' then
      match cs with
      | d :: ds =>
        if isAsciiDigit d then digitGroupAux (10 * v + digitVal d) (k + 1) ds
        else (v, k, c :: cs)
      | [] => (v, k, c :: cs)
    else (v, k, c :: cs)

/-- A digit group must start with a digit. -/
def digitGroup (l : List Char) : Option (ℕ × ℕ × List Char) :=
  match l with
  | c :: cs => if isAsciiDigit c then some (digitGroupAux (digitVal c) 1 cs) else none
  | [] => none

/-- Optional sign at the head of a numeric literal: returns the
negativity flag and the rest. -/
def pySign (t : List Char) : Bool × List Char :=
  match t with
  | c :: r => if c = '+' then (false, r) else if c = '-' then (true, r) else (false, c :: r)
  | [] => (false, [])

/-- Optional exponent part of a Python float literal: `e`/`E`, optional
sign, digit group; absent exponent leaves the mantissa unchanged. -/
def expPart (m : ℚ) (r : List Char) : Option (ℚ × List Char) :=
  match r with
  | c :: r1 =>
    if c = 'e' ∨ c = 'E' then
      let sr : Bool × List Char := pySign r1
      match digitGroup sr.2 with
      | some (ev, _, r3) =>
        some (m * (if sr.1 then ((10 : ℚ) ^ ev)⁻¹ else (10 : ℚ) ^ ev), r3)
      | none => none
    else some (m, r)
  | [] => some (m, [])

/-- Unsigned mantissa (with optional fraction) followed by an optional
exponent: the body of a finite Python float literal. -/
def floatMag (t1 : List Char) : Option (ℚ × List Char) :=
  match digitGroup t1 with
  | some (iv, _, r1) =>
    match r1 with
    | c :: r2 =>
      if c = '.' then
        match digitGroup r2 with
        | some (fv, fk, r3) => expPart ((iv : ℚ) + (fv : ℚ) / (10 : ℚ) ^ fk) r3
        | none => expPart (iv : ℚ) r2
      else expPart (iv : ℚ) (c :: r2)
    | [] => expPart (iv : ℚ) []
  | none =>
    match t1 with
    | c :: r2 =>
      if c = '.' then
        match digitGroup r2 with
        | some (fv, fk, r3) => expPart ((fv : ℚ) / (10 : ℚ) ^ fk) r3
        | none => none
      else none
    | [] => none

/-- Model of Python `float(s)` on finite decimal literals: surrounding
whitespace, optional sign, digits with optional fraction and exponent,
underscores between digits. Literals denoting non-finite floats
(`inf`, `nan`) have no rational counterpart and are mapped to `none`;
no behaviour settled below depends on them. -/
def pyFloat (s : List Char) : Option ℚ :=
  let t := pyStrip s
  let sg : Bool × List Char := pySign t
  match floatMag sg.2 with
  | some (m, r) => if r = [] then some (if sg.1 then -m else m) else none
  | none => none

/-- CPython `_strptime` regex fragment for `%Y`: exactly four digits. -/
def matchY (s : List Char) : Option (ℕ × List Char) :=
  match s with
  | a :: b :: c :: d :: r =>
    if isAsciiDigit a && isAsciiDigit b && isAsciiDigit c && isAsciiDigit d then
      some (1000 * digitVal a + 100 * digitVal b + 10 * digitVal c + digitVal d, r)
    else none
  | _ => none

/-- CPython `_strptime` alternatives for `%m`, in the engine's order:
`1[0-2]`, `0[1-9]`, `[1-9]`. -/
def mAlts (r : List Char) : List (ℕ × List Char) :=
  (match r with
   | a :: b :: t =>
     if a = '1' && (b = '0' || b = '1' || b = '2') then [(10 + digitVal b, t)] else []
   | _ => []) ++
  (match r with
   | a :: b :: t =>
     if a = '0' && isAsciiDigit b && b ≠ '0' then [(digitVal b, t)] else []
   | _ => []) ++
  (match r with
   | a :: t => if isAsciiDigit a && a ≠ '0' then [(digitVal a, t)] else []
   | _ => [])

/-- CPython `_strptime` alternatives for `%d`, in the engine's order:
`3[01]`, `[12]\d`, `0[1-9]`, `[1-9]`. -/
def dAlts (r : List Char) : List (ℕ × List Char) :=
  (match r with
   | a :: b :: t => if a = '3' && (b = '0' || b = '1') then [(30 + digitVal b, t)] else []
   | _ => []) ++
  (match r with
   | a :: b :: t =>
     if (a = '1' || a = '2') && isAsciiDigit b then [(10 * digitVal a + digitVal b, t)] else []
   | _ => []) ++
  (match r with
   | a :: b :: t =>
     if a = '0' && isAsciiDigit b && b ≠ '0' then [(digitVal b, t)] else []
   | _ => []) ++
  (match r with
   | a :: t => if isAsciiDigit a && a ≠ '0' then [(digitVal a, t)] else []
   | _ => [])

/-- CPython `_strptime` alternatives for `%H`, in the engine's order:
`2[0-3]`, `[0-1]\d`, `\d`. -/
def hAlts (r : List Char) : List (ℕ × List Char) :=
  (match r with
   | a :: b :: t =>
     if a = '2' && (b = '0' || b = '1' || b = '2' || b = '3') then [(20 + digitVal b, t)] else []
   | _ => []) ++
  (match r with
   | a :: b :: t =>
     if (a = '0' || a = '1') && isAsciiDigit b then [(10 * digitVal a + digitVal b, t)] else []
   | _ => []) ++
  (match r with
   | a :: t => if isAsciiDigit a then [(digitVal a, t)] else []
   | _ => [])

/-- Gregorian leap-year rule, as used by `datetime`. -/
def isLeap (y : ℕ) : Bool := y % 4 = 0 && (y % 100 ≠ 0 || y % 400 = 0)

/-- Days in a month, as enforced by the `datetime` constructor. -/
def daysInMonth (y m : ℕ) : ℕ :=
  if m = 2 then (if isLeap y then 29 else 28)
  else if m = 4 ∨ m = 6 ∨ m = 9 ∨ m = 11 then 30
  else 31

/-- Model of Python `datetime.strptime(s, "%Y%m%d%H")`: the backtracking
regex engine takes the first (depth-first, alternative-ordered) match of
`%Y%m%d%H`, `strptime` then rejects the string if characters remain
unconsumed, and the `datetime` constructor rejects year 0 and days that
overflow the month. -/
def pyStrptimeYmdH (s : List Char) : Option (ℕ × ℕ × ℕ × ℕ) :=
  match matchY s with
  | none => none
  | some (y, r1) =>
    match firstSome (fun mm =>
        firstSome (fun dd =>
            firstSome (fun hh => some (mm.1, dd.1, hh.1, hh.2)) (hAlts dd.2))
          (dAlts mm.2))
        (mAlts r1) with
    | none => none
    | some (m, d, h, r4) =>
      if r4 = [] ∧ 1 ≤ y ∧ d ≤ daysInMonth y m then some (y, m, d, h) else none

/-- Two-digit zero-padded decimal rendering. -/
def pad2 (n : ℕ) : List Char := [Nat.digitChar (n / 10 % 10), Nat.digitChar (n % 10)]

/-- Four-digit zero-padded decimal rendering. -/
def pad4 (n : ℕ) : List Char :=
  [Nat.digitChar (n / 1000 % 10), Nat.digitChar (n / 100 % 10),
   Nat.digitChar (n / 10 % 10), Nat.digitChar (n % 10)]

/-- Model of `datetime(y, m, d, h).isoformat() + "Z"`. -/
def isoZ (y m d h : ℕ) : List Char :=
  pad4 y ++ ('-' :: pad2 m) ++ ('-' :: pad2 d) ++ ('T' :: pad2 h) ++ (":00:00Z").toList

/-- One standardized GeoJSON feature as built by `fetcher.py`: geometry
coordinates are `[lon, lat]`; the no-data fallback feature carries no
`stormId` key, which is modelled by `stormId = none`. -/
structure Feature where
  lon : ℚ
  lat : ℚ
  stormId : Option (List Char)
  stormName : List Char
  maxWindKts : ℤ
  advisoryTime : List Char
  source_agency : List Char
deriving DecidableEq

/-- Latitude conversion of `parse_atcf_text`: strip the final character
unconditionally, `float` the prefix, divide by 10, negate iff the token
ends in `S`. -/
def convertLat (s : List Char) : Option ℚ :=
  match pyFloat s.dropLast with
  | none => none
  | some v => some (if s.getLast? = some ('S') then -(v / 10) else v / 10)

/-- Longitude conversion of `parse_atcf_text`: strip the final character
unconditionally, `float` the prefix, divide by 10, negate iff the token
ends in `W`. -/
def convertLon (s : List Char) : Option ℚ :=
  match pyFloat s.dropLast with
  | none => none
  | some v => some (if s.getLast? = some ('W') then -(v / 10) else v / 10)

/-- Field access on the split line, `[]` out of range (the length guard in
`parse_atcf_text` ensures indices 0–9 are in range when used). -/
def getPart (parts : List (List Char)) (i : ℕ) : List Char := parts.getD i []

/-- The provider's record-kind vocabulary accepted by `parse_atcf_text`. -/
def recordKinds : List (List Char) := [("ADJ").toList, ("FIX").toList, ("BEST").toList]

/-- One iteration of the line loop of `parse_atcf_text`: split on commas,
strip the fields, check the candidate guard (at least 10 fields, all-digit
field 2, record kind in the vocabulary), then convert wind, latitude,
longitude and timestamp; any conversion failure skips the line. -/
def parseLine (line identifier storm_name agency : List Char) : Option Feature :=
  let parts := (splitChar ',' line).map pyStrip
  if parts.length ≥ 10 ∧ pyIsDigit (getPart parts 2) = true ∧
      pyStrip (getPart parts 4) ∈ recordKinds then
    let kts : ℤ := if pyIsDigit (getPart parts 8) then (natOfDigits (getPart parts 8) : ℤ) else 0
    match convertLat (pyStrip (getPart parts 6)), convertLon (pyStrip (getPart parts 7)),
        pyStrptimeYmdH (pyStrip (getPart parts 2)) with
    | some la, some lo, some (y, m, d, h) =>
      some { lon := lo, lat := la, stormId := some identifier, stormName := storm_name,
             maxWindKts := kts, advisoryTime := isoZ y m d h, source_agency := agency }
    | _, _, _ => none
  else none

/-- The fallback feature appended by `parse_atcf_text` when no line yields
a fix: geometry `(0,0)`, no storm id, annotated name, wind `0`, advisory
time equal to the run's `utcnow` instant. -/
def noDataFeature (storm_name agency now : List Char) : Feature :=
  { lon := 0, lat := 0, stormId := none,
    stormName := storm_name ++ (" (").toList ++ agency ++ (") - NO DATA").toList,
    maxWindKts := 0, advisoryTime := now, source_agency := agency }

/-- The lines scanned by `parse_atcf_text`: `data_text.strip().split('\n')`. -/
def linesOf (t : List Char) : List (List Char) := splitChar '\n' (pyStrip t)

/-- Model of `parse_atcf_text`: iterate the stripped document's lines in
reverse, stop at the first line that yields a fix, and fall back to the
single no-data feature otherwise. Always returns one feature. -/
def parse_atcf_text (data_text identifier storm_name agency now : List Char) : List Feature :=
  match firstSome (fun l => parseLine l identifier storm_name agency)
      (linesOf data_text).reverse with
  | some f => [f]
  | none => [noDataFeature storm_name agency now]

/-- Lazy scan for group 3 of the storm-listing pattern, `(.*?)</a>`:
accumulate non-newline characters until the closing literal matches,
preferring the shortest capture. Returns the capture and the remainder
after the closing literal. -/
def g3scan : List Char → Option (List Char × List Char)
  | '<' :: '/' :: 'a' :: '>' :: rest => some ([], rest)
  | [] => none
  | c :: cs =>
    if c = '\n' then none
    else
      match g3scan cs with
      | some (g3, rest) => some (c :: g3, rest)
      | none => none

/-- Separator-and-tail match for the storm-listing pattern, starting right
after group 2: `\s?-\s?(.*?)</a>`, with the engine's ordered choice (each
optional whitespace is tried consumed first, then unconsumed). -/
def sepAt (t : List Char) : Option (List Char × List Char) :=
  let afterDash : List Char → Option (List Char × List Char) := fun u =>
    match u with
    | c :: cs =>
      if isPySpace c then
        match g3scan cs with
        | some r => some r
        | none => g3scan u
      else g3scan u
    | [] => none
  let tryDash : List Char → Option (List Char × List Char) := fun u =>
    match u with
    | '-' :: u1 => afterDash u1
    | _ => none
  match t with
  | c :: cs =>
    if isPySpace c then
      match tryDash cs with
      | some r => some r
      | none => tryDash (c :: cs)
    else tryDash (c :: cs)
  | [] => none

/-- Lazy group-2 search of the storm-listing pattern, `(.*?)\s?-\s?(.*?)</a>`:
extend group 2 one non-newline character at a time, handing control to the
separator match at the earliest position where it succeeds. Returns
(group 2, group 3, remainder after the match). -/
def lazyTail : List Char → Option (List Char × List Char × List Char)
  | [] =>
    (match sepAt [] with
     | some (g3, rest) => some ([], g3, rest)
     | none => none)
  | c :: cs =>
    match sepAt (c :: cs) with
    | some (g3, rest) => some ([], g3, rest)
    | none =>
      if c = '\n' then none
      else
        match lazyTail cs with
        | some (g2, g3, rest) => some (c :: g2, g3, rest)
        | none => none

/-- Exact literal match, returning the remainder. -/
def litEx : List Char → List Char → Option (List Char)
  | [], rest => some rest
  | c :: cs, d :: ds => if c = d then litEx cs ds else none
  | _ :: _, [] => none

/-- Case-insensitive literal match (for the `re.IGNORECASE` searches). -/
def litCI : List Char → List Char → Option (List Char)
  | [], rest => some rest
  | c :: cs, d :: ds => if c.toLower = d.toLower then litCI cs ds else none
  | _ :: _, [] => none

/-- Exactly `n` ASCII digits (`\d{n}`), returning the remainder. -/
def takeDigitsN : ℕ → List Char → Option (List Char)
  | 0, r => some r
  | _ + 1, [] => none
  | k + 1, c :: cs => if isAsciiDigit c then takeDigitsN k cs else none

/-- Two uppercase ASCII letters (`[A-Z]{2}` without `IGNORECASE`). -/
def twoUpper (r : List Char) : Option (List Char) :=
  match r with
  | a :: b :: t => if decide ('A' ≤ a ∧ a ≤ 'Z') && decide ('A' ≤ b ∧ b ≤ 'Z') then some t else none
  | _ => none

/-- Two ASCII letters (`[A-Z]{2}` under `re.IGNORECASE`). -/
def twoAlphaCI (r : List Char) : Option (List Char) :=
  match r with
  | a :: b :: t =>
    if (decide ('A' ≤ a.toUpper ∧ a.toUpper ≤ 'Z')) && (decide ('A' ≤ b.toUpper ∧ b.toUpper ≤ 'Z'))
    then some t else none
  | _ => none

/-- Any single character other than a newline (the `.` metacharacter). -/
def anyNotNL (r : List Char) : Option (List Char) :=
  match r with
  | c :: cs => if c = '\n' then none else some cs
  | [] => none

/-- Attempt of the storm-listing pattern at one position:
`storm\.asp\?storm_identifier=([A-Z]{2}\d{4,6})">(.*?)\s?-\s?(.*?)</a>`,
with greedy backtracking on `\d{4,6}`. Returns the three captures and the
total matched length. -/
def matchStormAt (s : List Char) : Option ((List Char × List Char × List Char) × ℕ) :=
  match litEx ("storm.asp?storm_identifier=").toList s with
  | none => none
  | some r1 =>
    match twoUpper r1 with
    | none => none
    | some r2 =>
      firstSome (fun k =>
        match takeDigitsN k r2 with
        | none => none
        | some r3 =>
          match litEx ("\">").toList r3 with
          | none => none
          | some r4 =>
            match lazyTail r4 with
            | some (g2, g3, rest) =>
              some ((r1.take (r1.length - r3.length), g2, g3), s.length - rest.length)
            | none => none) [6, 5, 4]

/-- Fuel-driven scan implementing `re.findall` for the storm-listing
pattern: try the pattern at each position left to right, and continue
after the end of each (nonempty) match. -/
def stormMatchesGo : ℕ → List Char → List (List Char × List Char × List Char)
  | 0, _ => []
  | fuel + 1, s =>
    match matchStormAt s with
    | some (g, len) => g :: stormMatchesGo fuel (s.drop (max len 1))
    | none =>
      match s with
      | [] => []
      | _ :: cs => stormMatchesGo fuel cs

/-- All storm-listing matches of a document, in scan order. -/
def stormMatches (s : List Char) : List (List Char × List Char × List Char) :=
  stormMatchesGo (s.length + 1) s

/-- Name choice of `get_cira_active_storms`: the stripped post-separator
capture if nonempty, else the stripped pre-separator capture. -/
def extractName (g2 g3 : List Char) : List Char :=
  if pyStrip g3 = [] then pyStrip g2 else pyStrip g3

/-- First-occurrence deduplication, the model of `list(set(xs))` (CPython's
set iteration order is implementation-defined; only the underlying set,
never the order, matters to the properties settled below). -/
def dedupFirst {α : Type} [DecidableEq α] (l : List α) : List α :=
  l.foldl (fun acc x => if x ∈ acc then acc else acc ++ [x]) []

/-- The CIRA/RAMMB listing address (`CIRA_BASE_URL`). -/
def ciraBaseUrl : List Char := ("https://rammb-data.cira.colostate.edu/tc_realtime/").toList

/-- The provider origin against which relative advisory paths are resolved. -/
def ciraOrigin : List Char := ("https://rammb-data.cira.colostate.edu/").toList

/-- The agency label under which the CIRA scrape runs (`AGENCY_CONFIG` key). -/
def agencyCIRA : List Char := ("CIRA_RAMMB").toList

/-- Model of `get_cira_active_storms`: fetch the listing document (any
transport failure yields the empty list), collect all storm-listing
matches, extract each display name, and deduplicate the pairs. -/
def get_cira_active_storms (fetch : List Char → Option (List Char))
    (index_url : List Char) : List (List Char × List Char) :=
  match fetch index_url with
  | none => []
  | some html => dedupFirst ((stormMatches html).map (fun g => (g.1, extractName g.2.1 g.2.2)))

/-- The storm detail-page address built by `scrape_cira_data`. -/
def stormPageUrl (identifier : List Char) : List Char :=
  ciraBaseUrl ++ ("storm_experimental.asp?storm_identifier=").toList ++ identifier

/-- Body of the primary advisory-link pattern after `<a href="`, capturing
`/tc_realtime/products/\d{4}/[A-Z]{2}\d{4,6}/atcf/[A-Z]{2}\d{4,6}_atcf.txt`
followed by `">Latest Text File</a>`, all under `re.IGNORECASE`, with
greedy backtracking on each `\d{4,6}`. -/
def link1Group (r1 : List Char) : Option (List Char) :=
  match litCI ("/tc_realtime/products/").toList r1 with
  | none => none
  | some r2 =>
    match takeDigitsN 4 r2 with
    | none => none
    | some r3 =>
      match litEx ("/").toList r3 with
      | none => none
      | some r4 =>
        match twoAlphaCI r4 with
        | none => none
        | some r5 =>
          firstSome (fun k =>
            match takeDigitsN k r5 with
            | none => none
            | some r6 =>
              match litCI ("/atcf/").toList r6 with
              | none => none
              | some r7 =>
                match twoAlphaCI r7 with
                | none => none
                | some r8 =>
                  firstSome (fun k2 =>
                    match takeDigitsN k2 r8 with
                    | none => none
                    | some r9 =>
                      match litCI ("_atcf").toList r9 with
                      | none => none
                      | some r10 =>
                        match anyNotNL r10 with
                        | none => none
                        | some r11 =>
                          match litCI ("txt").toList r11 with
                          | none => none
                          | some r12 =>
                            match litCI ("\">Latest Text File</a>").toList r12 with
                            | none => none
                            | some _ => some (r1.take (r1.length - r12.length))) [6, 5, 4]) [6, 5, 4]

/-- Body of the fallback (TC Vitals) advisory-link pattern after
`<a href="`, capturing
`/tc_realtime/products/\d{4}/[A-Z]{2}\d{4,6}/tc_vitals/[A-Z]{2}\d{4,6}.txt`
followed by `">Latest Text File</a>`, under `re.IGNORECASE`. -/
def link2Group (r1 : List Char) : Option (List Char) :=
  match litCI ("/tc_realtime/products/").toList r1 with
  | none => none
  | some r2 =>
    match takeDigitsN 4 r2 with
    | none => none
    | some r3 =>
      match litEx ("/").toList r3 with
      | none => none
      | some r4 =>
        match twoAlphaCI r4 with
        | none => none
        | some r5 =>
          firstSome (fun k =>
            match takeDigitsN k r5 with
            | none => none
            | some r6 =>
              match litCI ("/tc_vitals/").toList r6 with
              | none => none
              | some r7 =>
                match twoAlphaCI r7 with
                | none => none
                | some r8 =>
                  firstSome (fun k2 =>
                    match takeDigitsN k2 r8 with
                    | none => none
                    | some r9 =>
                      match anyNotNL r9 with
                      | none => none
                      | some r10 =>
                        match litCI ("txt").toList r10 with
                        | none => none
                        | some r11 =>
                          match litCI ("\">Latest Text File</a>").toList r11 with
                          | none => none
                          | some _ => some (r1.take (r1.length - r11.length))) [6, 5, 4]) [6, 5, 4]

/-- `re.search` for the primary advisory-link pattern: leftmost match wins. -/
def searchLink1 : List Char → Option (List Char)
  | [] => none
  | c :: cs =>
    match
      (match litCI ("<a href=\"").toList (c :: cs) with
       | some r1 => link1Group r1
       | none => none) with
    | some g => some g
    | none => searchLink1 cs

/-- `re.search` for the fallback advisory-link pattern: leftmost match wins. -/
def searchLink2 : List Char → Option (List Char)
  | [] => none
  | c :: cs =>
    match
      (match litCI ("<a href=\"").toList (c :: cs) with
       | some r1 => link2Group r1
       | none => none) with
    | some g => some g
    | none => searchLink2 cs

/-- Link resolution of `scrape_cira_data`: the primary pattern is searched
first; the fallback pattern is searched only when the primary is absent. -/
def resolveLink (html : List Char) : Option (List Char) :=
  match searchLink1 html with
  | some p => some p
  | none => searchLink2 html

/-- Per-storm body of `scrape_cira_data`'s loop: fetch the detail page,
resolve the advisory link, resolve the matched relative path against the
provider origin (stripping leading slashes), fetch the advisory text and
parse it. Any transport failure or missing link contributes no feature. -/
def perStormFeatures (fetch : List Char → Option (List Char))
    (identifier storm_name agency now : List Char) : List Feature :=
  match fetch (stormPageUrl identifier) with
  | none => []
  | some html =>
    match resolveLink html with
    | none => []
    | some path =>
      match fetch (ciraOrigin ++ path.dropWhile (fun c => c = '/')) with
      | none => []
      | some txt => parse_atcf_text txt identifier storm_name agency now

/-- Model of `scrape_cira_data`: discover the active storms from the
listing and concatenate each storm's contributed features. -/
def scrape_cira_data (fetch : List Char → Option (List Char))
    (agency now : List Char) : List Feature :=
  ((get_cira_active_storms fetch ciraBaseUrl).map
    (fun p => perStormFeatures fetch p.1 p.2 agency now)).flatten

/-- Parsed JSON values, the model of what `response.json()` returns for
the NOAA branch: objects are association lists in insertion order with
unique keys (duplicate source keys collapse, last value winning, as in a
Python dict); numbers are exact rationals. -/
inductive Json where
  | null : Json
  | bool (b : Bool) : Json
  | num (q : ℚ) : Json
  | str (s : List Char) : Json
  | arr (items : List Json) : Json
  | obj (fields : List (List Char × Json)) : Json

/-- Python dict key assignment on the association-list model: replace the
value in place when the key exists, append the pair otherwise. -/
def jsonSetKey : List (List Char × Json) → List Char → Json → List (List Char × Json)
  | [], k, v => [(k, v)]
  | (k0, v0) :: rest, k, v =>
    if k0 = k then (k, v) :: rest else (k0, v0) :: jsonSetKey rest k v

/-- Python dict key lookup on the association-list model. -/
def jsonLookup : List (List Char × Json) → List Char → Option Json
  | [], _ => none
  | (k0, v0) :: rest, k => if k0 = k then some v0 else jsonLookup rest k

/-- JSON whitespace between tokens. -/
def isJsonWs (c : Char) : Bool := c = ' ' || c = '\t' || c = '\n' || c = '\r'

/-- Value of a hexadecimal digit, for `\u` string escapes. -/
def hexVal (c : Char) : Option ℕ :=
  if '0' ≤ c ∧ c ≤ '9' then some (c.toNat - ('0').toNat)
  else if 'a' ≤ c ∧ c ≤ 'f' then some (c.toNat - ('a').toNat + 10)
  else if 'A' ≤ c ∧ c ≤ 'F' then some (c.toNat - ('A').toNat + 10)
  else none

/-- JSON string body after the opening quote: literal characters (raw
control characters are rejected, as by the default strict decoder), the
backslash escapes, and `\u` escapes with surrogate pairs combined. A
lone surrogate, which CPython would keep as an unpaired UTF-16 code
unit with no counterpart among Lean's scalar-value characters, is
treated as a parse failure; nothing settled below depends on one. -/
def jstrGo : ℕ → List Char → Option (List Char × List Char)
  | 0, _ => none
  | _ + 1, [] => none
  | fuel + 1, c :: s =>
    if c = '"' then some ([], s)
    else if c = '\\' then
      match s with
      | 'u' :: h1 :: h2 :: h3 :: h4 :: r2 =>
        match hexVal h1, hexVal h2, hexVal h3, hexVal h4 with
        | some a, some b, some c1, some d =>
          let n := 4096 * a + 256 * b + 16 * c1 + d
          if 55296 ≤ n ∧ n < 56320 then
            match r2 with
            | '\\' :: 'u' :: k1 :: k2 :: k3 :: k4 :: r3 =>
              match hexVal k1, hexVal k2, hexVal k3, hexVal k4 with
              | some a2, some b2, some c2, some d2 =>
                let m := 4096 * a2 + 256 * b2 + 16 * c2 + d2
                if 56320 ≤ m ∧ m < 57344 then
                  match jstrGo fuel r3 with
                  | some (t, rest) =>
                    some (Char.ofNat (65536 + 1024 * (n - 55296) + (m - 56320)) :: t, rest)
                  | none => none
                else none
              | _, _, _, _ => none
            | _ => none
          else if 56320 ≤ n ∧ n < 57344 then none
          else
            match jstrGo fuel r2 with
            | some (t, rest) => some (Char.ofNat n :: t, rest)
            | none => none
        | _, _, _, _ => none
      | e :: r2 =>
        let ec : Option Char :=
          if e = '"' then some '"'
          else if e = '\\' then some '\\'
          else if e = '/' then some '/'
          else if e = 'b' then some '\x08'
          else if e = 'f' then some '\x0c'
          else if e = 'n' then some '\n'
          else if e = 'r' then some '\r'
          else if e = 't' then some '\t'
          else none
        match ec with
        | some c2 =>
          match jstrGo fuel r2 with
          | some (t, rest) => some (c2 :: t, rest)
          | none => none
        | none => none
      | [] => none
    else if c.toNat < 32 then none
    else
      match jstrGo fuel s with
      | some (t, rest) => some (c :: t, rest)
      | none => none

/-- Greedy run of decimal digits: value, digit count and remainder. -/
def jdigitsAux : ℕ → ℕ → List Char → (ℕ × ℕ × List Char)
  | v, k, [] => (v, k, [])
  | v, k, c :: r =>
    if isAsciiDigit c then jdigitsAux (10 * v + digitVal c) (k + 1) r else (v, k, c :: r)

/-- Optional fraction and exponent of a JSON number, following the
decoder's regex: each part is consumed only when complete, otherwise its
leading character is left for the caller (which then fails on it). -/
def jfracExp (iv : ℕ) (r : List Char) : ℚ × List Char :=
  let m1r :=
    match r with
    | '.' :: d :: dr =>
      if isAsciiDigit d then
        let fr := jdigitsAux (digitVal d) 1 dr
        ((iv : ℚ) + (fr.1 : ℚ) / (10 : ℚ) ^ fr.2.1, fr.2.2)
      else ((iv : ℚ), r)
    | _ => ((iv : ℚ), r)
  match m1r.2 with
  | e :: rest =>
    if e = 'e' ∨ e = 'E' then
      let sg : Bool × List Char :=
        match rest with
        | '+' :: q => (false, q)
        | '-' :: q => (true, q)
        | _ => (false, rest)
      match sg.2 with
      | d :: dr =>
        if isAsciiDigit d then
          let er := jdigitsAux (digitVal d) 1 dr
          (m1r.1 * (if sg.1 then ((10 : ℚ) ^ er.1)⁻¹ else (10 : ℚ) ^ er.1), er.2.2)
        else m1r
      | [] => m1r
    else m1r
  | [] => m1r

/-- A JSON number per the decoder's grammar: optional minus, `0` or a
nonzero-led digit run, optional fraction and exponent. The non-finite
extras `NaN`/`Infinity`, which have no rational counterpart, are treated
as parse failures; nothing settled below depends on them. -/
def jnum (s : List Char) : Option (ℚ × List Char) :=
  let sg : Bool × List Char :=
    match s with
    | '-' :: r => (true, r)
    | _ => (false, s)
  match sg.2 with
  | '0' :: r1 =>
    let mr := jfracExp 0 r1
    some (if sg.1 then -mr.1 else mr.1, mr.2)
  | c :: r1 =>
    if isAsciiDigit c then
      let dr := jdigitsAux (digitVal c) 1 r1
      let mr := jfracExp dr.1 dr.2.2
      some (if sg.1 then -mr.1 else mr.1, mr.2)
    else none
  | [] => none

/-- Comma-separated array items after the first item position, ending at
the closing bracket. -/
def jarrItems (pv : List Char → Option (Json × List Char)) :
    ℕ → List Char → Option (List Json × List Char)
  | 0, _ => none
  | fuel + 1, s =>
    match pv s with
    | none => none
    | some (v, r) =>
      match r.dropWhile isJsonWs with
      | ',' :: r2 =>
        match jarrItems pv fuel r2 with
        | some (vs, rest) => some (v :: vs, rest)
        | none => none
      | ']' :: r2 => some ([v], r2)
      | _ => none

/-- Comma-separated object members, ending at the closing brace. -/
def jobjItems (pv : List Char → Option (Json × List Char)) :
    ℕ → List Char → Option (List (List Char × Json) × List Char)
  | 0, _ => none
  | fuel + 1, s =>
    match s.dropWhile isJsonWs with
    | '"' :: r =>
      match jstrGo (r.length + 1) r with
      | none => none
      | some (k, r1) =>
        match r1.dropWhile isJsonWs with
        | ':' :: r3 =>
          match pv r3 with
          | none => none
          | some (v, r4) =>
            match r4.dropWhile isJsonWs with
            | ',' :: r6 =>
              match jobjItems pv fuel r6 with
              | some (kvs, rest) => some ((k, v) :: kvs, rest)
              | none => none
            | '}' :: r6 => some ([(k, v)], r6)
            | _ => none
        | _ => none
    | _ => none

/-- One JSON value with leading whitespace, fuel bounding both nesting
depth and container size. -/
def jval : ℕ → List Char → Option (Json × List Char)
  | 0, _ => none
  | fuel + 1, s0 =>
    match s0.dropWhile isJsonWs with
    | 'n' :: 'u' :: 'l' :: 'l' :: r => some (.null, r)
    | 't' :: 'r' :: 'u' :: 'e' :: r => some (.bool true, r)
    | 'f' :: 'a' :: 'l' :: 's' :: 'e' :: r => some (.bool false, r)
    | '"' :: r =>
      match jstrGo (r.length + 1) r with
      | some (t, rest) => some (.str t, rest)
      | none => none
    | '[' :: r =>
      match r.dropWhile isJsonWs with
      | ']' :: r2 => some (.arr [], r2)
      | _ =>
        match jarrItems (jval fuel) fuel r with
        | some (vs, rest) => some (.arr vs, rest)
        | none => none
    | '{' :: r =>
      match r.dropWhile isJsonWs with
      | '}' :: r2 => some (.obj [], r2)
      | _ =>
        match jobjItems (jval fuel) fuel r with
        | some (kvs, rest) =>
          some (.obj (kvs.foldl (fun acc kv => jsonSetKey acc kv.1 kv.2) []), rest)
        | none => none
    | s =>
      match jnum s with
      | some (q, rest) => some (.num q, rest)
      | none => none

/-- Model of `json.loads` as invoked by `response.json()`: one JSON value
with surrounding whitespace and nothing else; any decode error surfaces
as `requests.exceptions.JSONDecodeError`, a `RequestException` caught by
`combine_all_data`, so it is folded into the `none` outcome. -/
def pyJsonLoads (s : List Char) : Option Json :=
  match jval (s.length + 1) s with
  | some (v, rest) => if rest.dropWhile isJsonWs = [] then some v else none
  | none => none

/-- One feature of the combined collection. Every feature in the source
is a Python dict: the ones this program builds have the fixed shape
modelled by `Feature`, while the NOAA branch also forwards arbitrary
decoded GeoJSON feature objects unchanged (except for the agency tag),
modelled by the `passthrough` constructor. -/
inductive OutFeature where
  | structured (f : Feature) : OutFeature
  | passthrough (j : Json) : OutFeature

/-- The mock feature `parse_noaa_geojson` appends when the feed yields
nothing: geometry `(0,0)`, annotated name, wind `0`, the call-time
instant, no storm id. -/
def noaaMockFeature (agency now : List Char) : Feature :=
  { lon := 0, lat := 0, stormId := none,
    stormName := ("TEST STORM (").toList ++ agency ++ (")").toList,
    maxWindKts := 0, advisoryTime := now, source_agency := agency }

/-- The mock feature the JTWC placeholder branch appends unconditionally,
with no fetch: point `(50,50)`, storm id `WP012025`, wind `85`. -/
def jtwcMockFeature (now : List Char) : Feature :=
  { lon := 50, lat := 50, stormId := some (("WP012025").toList),
    stormName := ("MOCK STORM JTWC").toList, maxWindKts := 85,
    advisoryTime := now, source_agency := ("JTWC").toList }

/-- The pass-through loop of `parse_noaa_geojson`: each decoded feature
must be an object whose `properties` value is an object; its
`source_agency` key is set to the agency and the feature kept. The first
failing item raises inside the loop's `try`, which stops the loop but
keeps the features already collected. -/
def noaaPass (agency : List Char) : List Json → List Json
  | [] => []
  | item :: rest =>
    match item with
    | .obj fs =>
      match jsonLookup fs (("properties").toList) with
      | some (.obj ps) =>
        Json.obj (jsonSetKey fs (("properties").toList)
            (.obj (jsonSetKey ps (("source_agency").toList) (.str agency)))) ::
          noaaPass agency rest
      | _ => []
    | _ => []

/-- Model of `parse_noaa_geojson`: read `data.get('features', [])` (any
non-object `data` or non-array value raises inside the guarding `try`
and yields no features, as does a missing key), tag and forward each
well-shaped feature until the first failure, and fall back to the single
mock feature when nothing was collected. -/
def parse_noaa_geojson (data : Json) (agency now : List Char) : List OutFeature :=
  let fs :=
    match data with
    | .obj kvs =>
      match jsonLookup kvs (("features").toList) with
      | some (.arr items) => noaaPass agency items
      | _ => []
    | _ => []
  if fs.isEmpty then [.structured (noaaMockFeature agency now)]
  else fs.map .passthrough

/-- The NOAA feed address from `AGENCY_CONFIG`. -/
def noaaUrl : List Char := ("https://www.nhc.noaa.gov/json/AL_Current.json").toList

/-- The NOAA (`GeoJSON`) branch of `combine_all_data`: fetch the feed
(any transport failure, non-2xx status or JSON decode error is caught
and contributes nothing), decode it and run `parse_noaa_geojson`. -/
def noaaBranchFeatures (fetch : List Char → Option (List Char))
    (now : List Char) : List OutFeature :=
  match fetch noaaUrl with
  | none => []
  | some txt =>
    match pyJsonLoads txt with
    | none => []
    | some data => parse_noaa_geojson data (("NOAA").toList) now

/-- The aggregated output of `combine_all_data`: the feature sequence plus
the summary metadata (`updated_at`, `total_features`, `source_type`). -/
structure FeatureCollection where
  updated_at : List Char
  total_features : ℕ
  source_type : List Char
  features : List OutFeature

/-- Model of `combine_all_data` over the full `AGENCY_CONFIG`, in the
dict's insertion order: the CIRA `CIRA_SCRAPE` branch, the NOAA
`GeoJSON` branch, and the JTWC `ATCF Text` placeholder branch, which
performs no fetch and unconditionally appends its mock feature; then the
final assembly of the feature collection. -/
def combine_all_data (fetch : List Char → Option (List Char))
    (now : List Char) : FeatureCollection :=
  let fs := (scrape_cira_data fetch agencyCIRA now).map OutFeature.structured
    ++ noaaBranchFeatures fetch now
    ++ [OutFeature.structured (jtwcMockFeature now)]
  { updated_at := now, total_features := fs.length,
    source_type := ("Aggregated Tropical Cyclone Feeds").toList, features := fs }

/-- The Resolver outcome for one storm, as one function: the detail-page
fetch, the link search and the advisory fetch in sequence; `none` for a
transport failure at either fetch or a missing advisory link. -/
def resolveStorm (fetch : List Char → Option (List Char))
    (identifier : List Char) : Option (List Char) :=
  match fetch (stormPageUrl identifier) with
  | none => none
  | some html =>
    match resolveLink html with
    | none => none
    | some path => fetch (ciraOrigin ++ path.dropWhile (fun c => c = '/'))

theorem firstSome_eq_none_iff {α β : Type} (f : α → Option β) (l : List α) :
    firstSome f l = none ↔ ∀ x ∈ l, f x = none := by
  induction l with
  | nil => simp [firstSome]
  | cons x xs ih =>
    simp only [firstSome]
    cases h : f x with
    | some b => simp [h]
    | none => simpa [h] using ih

theorem firstSome_eq_some {α β : Type} (f : α → Option β) (l : List α) (b : β)
    (h : firstSome f l = some b) : ∃ x ∈ l, f x = some b := by
  induction l with
  | nil => simp [firstSome] at h
  | cons x xs ih =>
    simp only [firstSome] at h
    cases hx : f x with
    | some c =>
      rw [hx] at h
      dsimp only at h
      exact ⟨x, by simp, hx.trans h⟩
    | none =>
      rw [hx] at h
      dsimp only at h
      obtain ⟨y, hy, hfy⟩ := ih h
      exact ⟨y, by simp [hy], hfy⟩

theorem firstSome_filter {α β : Type} (f : α → Option β) (l : List α) :
    firstSome f l = ((l.filter (fun x => (f x).isSome)).head?).bind f := by
  induction l with
  | nil => simp [firstSome]
  | cons x xs ih =>
    simp only [firstSome, List.filter_cons]
    cases hx : f x with
    | some b => simp [hx]
    | none => simpa [hx] using ih

theorem splitChar_ne_nil (c : Char) (l : List Char) : splitChar c l ≠ [] := by
  cases l with
  | nil => simp [splitChar]
  | cons x xs =>
    simp only [splitChar]
    by_cases hx : x = c
    · simp [hx]
    · simp only [if_neg hx]
      cases h : splitChar c xs <;> simp

theorem parse_atcf_text_length (t i n a now : List Char) :
    (parse_atcf_text t i n a now).length = 1 := by
  unfold parse_atcf_text
  cases h : firstSome (fun l => parseLine l i n a) (linesOf t).reverse <;> simp [h]

theorem parseLine_wind_nonneg (line i n a : List Char) (f : Feature)
    (h : parseLine line i n a = some f) : 0 ≤ f.maxWindKts := by
  unfold parseLine at h
  dsimp only at h
  split at h
  · split at h
    · obtain rfl := Option.some.inj h
      dsimp only
      split
      · exact Int.ofNat_nonneg _
      · exact le_refl 0
    · exact absurd h (by simp)
  · exact absurd h (by simp)

theorem dropWhile_eq_self_of_all {p : Char → Bool} (l : List Char)
    (hl : ∀ c ∈ l, p c = false) : l.dropWhile p = l := by
  cases l with
  | nil => rfl
  | cons c cs => simp [List.dropWhile_cons, hl c (by simp)]

theorem digit_not_space (c : Char) (hc : isAsciiDigit c = true) : isPySpace c = false := by
  by_contra hcs
  rw [Bool.not_eq_false] at hcs
  simp only [isPySpace, Bool.or_eq_true, decide_eq_true_eq] at hcs
  rcases hcs with ((((h | h) | h) | h) | h) | h <;> subst h <;> exact absurd hc (by decide)

theorem pyStrip_digits (l : List Char) (hd : l.all isAsciiDigit = true) : pyStrip l = l := by
  have hns : ∀ c ∈ l, isPySpace c = false := fun c hc =>
    digit_not_space c (List.all_eq_true.mp hd c hc)
  unfold pyStrip
  rw [dropWhile_eq_self_of_all l hns,
    dropWhile_eq_self_of_all l.reverse (fun c hc => hns c (List.mem_reverse.mp hc)),
    List.reverse_reverse]

theorem pySign_of_digit (c : Char) (cs : List Char) (hc : isAsciiDigit c = true) :
    pySign (c :: cs) = (false, c :: cs) := by
  have h1 : c ≠ '+' := by rintro rfl; exact absurd hc (by decide)
  have h2 : c ≠ '-' := by rintro rfl; exact absurd hc (by decide)
  simp [pySign, h1, h2]

theorem expPart_nonneg (m : ℚ) (r : List Char) (m' : ℚ) (r' : List Char)
    (hm : 0 ≤ m) (h : expPart m r = some (m', r')) : 0 ≤ m' := by
  unfold expPart at h
  cases r with
  | nil =>
    obtain ⟨h1, h2⟩ := Prod.mk.injEq .. ▸ Option.some.inj h
    exact h1 ▸ hm
  | cons c r1 =>
    dsimp only at h
    split at h
    · cases hdg : digitGroup (pySign r1).2 with
      | none => rw [hdg] at h; simp at h
      | some p =>
        rw [hdg] at h
        obtain ⟨ev, k, r3⟩ := p
        dsimp only at h
        obtain ⟨h1, h2⟩ := Prod.mk.injEq .. ▸ Option.some.inj h
        rw [← h1]
        apply mul_nonneg hm
        split <;> positivity
    · obtain ⟨h1, h2⟩ := Prod.mk.injEq .. ▸ Option.some.inj h
      exact h1 ▸ hm

theorem floatMag_nonneg (t : List Char) (m : ℚ) (r : List Char)
    (h : floatMag t = some (m, r)) : 0 ≤ m := by
  unfold floatMag at h
  cases hdg : digitGroup t with
  | some p =>
    rw [hdg] at h
    obtain ⟨iv, k, r1⟩ := p
    dsimp only at h
    cases r1 with
    | nil => exact expPart_nonneg _ _ _ _ (by positivity) h
    | cons c r2 =>
      dsimp only at h
      by_cases hc : c = '.'
      · rw [if_pos hc] at h
        cases hdg2 : digitGroup r2 with
        | some p2 =>
          rw [hdg2] at h
          obtain ⟨fv, fk, r3⟩ := p2
          exact expPart_nonneg _ _ _ _ (by positivity) h
        | none =>
          rw [hdg2] at h
          exact expPart_nonneg _ _ _ _ (by positivity) h
      · rw [if_neg hc] at h
        exact expPart_nonneg _ _ _ _ (by positivity) h
  | none =>
    rw [hdg] at h
    cases t with
    | nil => exact absurd h (by simp)
    | cons c r2 =>
      dsimp only at h
      by_cases hc : c = '.'
      · rw [if_pos hc] at h
        cases hdg2 : digitGroup r2 with
        | some p2 =>
          rw [hdg2] at h
          obtain ⟨fv, fk, r3⟩ := p2
          exact expPart_nonneg _ _ _ _ (by positivity) h
        | none => rw [hdg2] at h; exact absurd h (by simp)
      · rw [if_neg hc] at h
        exact absurd h (by simp)

theorem pyFloat_digits_nonneg (l : List Char) (q : ℚ)
    (hd : l.all isAsciiDigit = true) (h : pyFloat l = some q) : 0 ≤ q := by
  unfold pyFloat at h
  dsimp only at h
  rw [pyStrip_digits l hd] at h
  cases l with
  | nil =>
    simp only [show floatMag (pySign ([] : List Char)).2 = none from rfl] at h
    exact absurd h (by simp)
  | cons c cs =>
    have hc : isAsciiDigit c = true := by
      rw [List.all_cons, Bool.and_eq_true] at hd
      exact hd.1
    rw [pySign_of_digit c cs hc] at h
    dsimp only at h
    cases hfm : floatMag (c :: cs) with
    | none => rw [hfm] at h; simp at h
    | some p =>
      rw [hfm] at h
      obtain ⟨m, r⟩ := p
      dsimp only at h
      split at h
      · obtain rfl := Option.some.inj h
        exact floatMag_nonneg _ _ _ hfm
      · exact absurd h (by simp)

theorem convertLat_sign (s : List Char) (u : ℚ)
    (hd : (s.dropLast).all isAsciiDigit = true) (hu : convertLat s = some u) :
    if s.getLast? = some ('S') then u ≤ 0 else 0 ≤ u := by
  unfold convertLat at hu
  cases hf : pyFloat s.dropLast with
  | none => rw [hf] at hu; exact absurd hu (by simp)
  | some v =>
    rw [hf] at hu
    dsimp only at hu
    obtain rfl := Option.some.inj hu
    have hv : (0 : ℚ) ≤ v / 10 := div_nonneg (pyFloat_digits_nonneg _ _ hd hf) (by norm_num)
    by_cases hS : s.getLast? = some ('S')
    · rw [if_pos hS, if_pos hS]
      linarith
    · rw [if_neg hS, if_neg hS]
      exact hv

theorem convertLon_sign (s : List Char) (v : ℚ)
    (hd : (s.dropLast).all isAsciiDigit = true) (hv : convertLon s = some v) :
    if s.getLast? = some ('W') then v ≤ 0 else 0 ≤ v := by
  unfold convertLon at hv
  cases hf : pyFloat s.dropLast with
  | none => rw [hf] at hv; exact absurd hv (by simp)
  | some w =>
    rw [hf] at hv
    dsimp only at hv
    obtain rfl := Option.some.inj hv
    have hw : (0 : ℚ) ≤ w / 10 := div_nonneg (pyFloat_digits_nonneg _ _ hd hf) (by norm_num)
    by_cases hW : s.getLast? = some ('W')
    · rw [if_pos hW, if_pos hW]
      linarith
    · rw [if_neg hW, if_neg hW]
      exact hw

theorem lazyTail_first (r : List Char) : ∀ g2 g3 rest : List Char,
    lazyTail r = some (g2, g3, rest) →
      sepAt (List.drop g2.length r) = some (g3, rest) ∧
        ∀ k, k < g2.length → sepAt (List.drop k r) = none := by
  induction r with
  | nil =>
    intro g2 g3 rest h
    exact absurd h (by simp [lazyTail, sepAt])
  | cons c cs ih =>
    intro g2 g3 rest h
    unfold lazyTail at h
    cases hs : sepAt (c :: cs) with
    | some p =>
      rw [hs] at h
      obtain ⟨pg3, prest⟩ := p
      dsimp only at h
      simp only [Option.some.injEq, Prod.mk.injEq] at h
      obtain ⟨h1, h2, h3⟩ := h
      subst h1; subst h2; subst h3
      refine ⟨by simpa using hs, ?_⟩
      intro k hk
      simp at hk
    | none =>
      rw [hs] at h
      by_cases hc : c = '\n'
      · rw [if_pos hc] at h
        exact absurd h (by simp)
      · rw [if_neg hc] at h
        cases ht : lazyTail cs with
        | none => rw [ht] at h; exact absurd h (by simp)
        | some q =>
          rw [ht] at h
          obtain ⟨g2', g3', rest'⟩ := q
          dsimp only at h
          simp only [Option.some.injEq, Prod.mk.injEq] at h
          obtain ⟨h1, h2, h3⟩ := h
          subst h1; subst h2; subst h3
          obtain ⟨ih1, ih2⟩ := ih g2' g3' rest' ht
          constructor
          · simpa [List.drop_succ_cons] using ih1
          · intro k hk
            cases k with
            | zero => simpa using hs
            | succ k' =>
              rw [List.drop_succ_cons]
              exact ih2 k' (by simpa using hk)

theorem perStorm_resolve (fetch : List Char → Option (List Char))
    (identifier storm_name agency now : List Char) :
    perStormFeatures fetch identifier storm_name agency now =
      match resolveStorm fetch identifier with
      | none => []
      | some txt => parse_atcf_text txt identifier storm_name agency now := by
  unfold perStormFeatures resolveStorm
  cases h1 : fetch (stormPageUrl identifier) with
  | none => rfl
  | some html =>
    dsimp only
    cases h2 : resolveLink html with
    | none => rfl
    | some path => dsimp only

/-- Concrete storm identifier used in the concrete instances below. -/
def iW : List Char := ("AL012025").toList

/-- Concrete storm display name used in the concrete instances below. -/
def nW : List Char := ("ANDREA").toList

/-- Concrete agency label used in the concrete instances below. -/
def agW : List Char := ("CIRA_RAMMB").toList

/-- Concrete run instant used in the concrete instances below. -/
def nowW : List Char := ("2025-10-12T00:00:00Z").toList

/-- A single well-formed advisory line (field layout per the ATCF format:
index 2 the date-hour, 4 the record kind, 6 latitude, 7 longitude, 8 wind). -/
def advLineOK : List Char := ("A, B, 2025061512, C, FIX, D, 150N, 0700W, 65, E").toList

/-- An advisory document with two well-formed fix lines. -/
def advDocTwo : List Char :=
  ("A, B, 2025061512, C, FIX, D, 150N, 0700W, 65, E\nA, B, 2025061600, C, FIX, D, 160N, 0710W, 70, E").toList

/-- Per-line field 2 of a split advisory line, as read by the parser. -/
def field2 (line : List Char) : List Char :=
  getPart ((splitChar ',' line).map pyStrip) 2

/-- Claim-side predicate, from the specification's words: an all-digit
date-hour token of the exact ten-character shape YYYYMMDDHH. -/
def exactYmdH10 (s : List Char) : Prop := s.length = 10 ∧ s.all isAsciiDigit = true

/-- Claim-side extraction, from the specification's words: the text
following the final `-` separator in the matched text, trimmed; if that
is empty, the full given text trimmed. -/
def finalDashName (s : List Char) : List Char :=
  let ps := splitChar '-' s
  if ps.length ≥ 2 ∧ pyStrip (ps.getLastD []) ≠ [] then pyStrip (ps.getLastD []) else pyStrip s

/-- Claim C2 (corrected): the Parser does not emit one fix per valid
candidate line; it scans the lines bottom-up, stops at the first success,
and returns exactly one feature — the fix of the last (bottom-most) valid
candidate line, or the no-data fallback when no line is valid. -/
theorem C2_theorem (t i n a now : List Char) :
    parse_atcf_text t i n a now =
      match ((linesOf t).filter (fun l => (parseLine l i n a).isSome)).getLast? with
      | some l => [(parseLine l i n a).getD (noDataFeature n a now)]
      | none => [noDataFeature n a now] := by
  unfold parse_atcf_text
  rw [firstSome_filter, List.filter_reverse, List.head?_reverse]
  cases hl : ((linesOf t).filter (fun l => (parseLine l i n a).isSome)).getLast? with
  | none => rfl
  | some l =>
    have hmem : l ∈ (linesOf t).filter (fun l => (parseLine l i n a).isSome) :=
      List.mem_of_mem_getLast? hl
    have hsome := (List.mem_filter.mp hmem).2
    obtain ⟨f, hf⟩ := Option.isSome_iff_exists.mp hsome
    simp [hf]

/-- Claim C2 counterexample: a document with two valid candidate lines
yields a single output feature, not one per line as the claim states. -/
theorem C2_counterexample :
    ((linesOf advDocTwo).filter (fun l => (parseLine l iW nW agW).isSome)).length = 2 ∧
    (parse_atcf_text advDocTwo iW nW agW nowW).length = 1 := by decide

/-- Claim C3 (corrected): every feature the Parser emits carries a
non-negative wind value; the latitude and longitude range conditions of
the original claim do not hold (see the counterexample). -/
theorem C3_theorem (t i n a now : List Char) (f : Feature)
    (hf : f ∈ parse_atcf_text t i n a now) : 0 ≤ f.maxWindKts := by
  unfold parse_atcf_text at hf
  cases h : firstSome (fun l => parseLine l i n a) (linesOf t).reverse with
  | some g =>
    rw [h] at hf
    simp only [List.mem_singleton] at hf
    subst hf
    obtain ⟨l, _, hl⟩ := firstSome_eq_some _ _ _ h
    exact parseLine_wind_nonneg _ _ _ _ _ hl
  | none =>
    rw [h] at hf
    simp only [List.mem_singleton] at hf
    subst hf
    exact le_refl 0

/-- Claim C3 counterexample: an accepted line with latitude token 9999N
and longitude token 19999E is emitted with latitude 999.9 and longitude
1999.9, outside [-90, 90] and [-180, 180]. -/
theorem C3_counterexample :
    (parse_atcf_text (("A, B, 2025061512, C, FIX, D, 9999N, 19999E, 65, E").toList)
        iW nW agW nowW).map (fun f => (f.stormId, f.lat, f.lon)) =
      [(some iW, ((9999 : ℕ) : ℚ) / 10, ((19999 : ℕ) : ℚ) / 10)] ∧
    ¬ (((9999 : ℕ) : ℚ) / 10 ≤ 90) ∧ ¬ (((19999 : ℕ) : ℚ) / 10 ≤ 180) :=
  ⟨by rfl, by norm_num, by norm_num⟩

theorem headD_mem_of_length_one {α : Type} (l : List α) (d : α) (h : l.length = 1) :
    l.headD d ∈ l := by
  cases l with
  | nil => simp at h
  | cons x xs => simp

/-- Claim C3 witness: the wind bound applied to a concrete parse. -/
theorem C3_witness :
    0 ≤ ((parse_atcf_text advDocTwo iW nW agW nowW).headD (noDataFeature nW agW nowW)).maxWindKts :=
  C3_theorem advDocTwo iW nW agW nowW _
    (headD_mem_of_length_one _ _ (parse_atcf_text_length advDocTwo iW nW agW nowW))

/-- Claim C4 (confirmed): the Parser's output count (always exactly one
feature) never exceeds the input line count (always at least one). -/
theorem C4_theorem (t i n a now : List Char) :
    (parse_atcf_text t i n a now).length ≤ (splitChar '\n' t).length := by
  rw [parse_atcf_text_length]
  cases h : splitChar '\n' t with
  | nil => exact absurd h (splitChar_ne_nil '\n' t)
  | cons x xs => simp

/-- Claim C5 (corrected): on a document with at least one valid candidate
line, the Parser's output does not depend on the call instant; the
original unconditional claim fails because the no-data fallback embeds
the wall-clock time of the call (see the counterexample). -/
theorem C5_theorem (t i n a now1 now2 : List Char)
    (h : ∃ l ∈ linesOf t, (parseLine l i n a).isSome = true) :
    parse_atcf_text t i n a now1 = parse_atcf_text t i n a now2 := by
  unfold parse_atcf_text
  cases hf : firstSome (fun l => parseLine l i n a) (linesOf t).reverse with
  | some f => rfl
  | none =>
    obtain ⟨l, hl, hsome⟩ := h
    rw [(firstSome_eq_none_iff _ _).mp hf l (List.mem_reverse.mpr hl)] at hsome
    exact absurd hsome (by simp)

/-- Claim C5 counterexample: two runs of the Parser on the same (fixless)
document at different instants return different output sequences, because
the fallback feature's advisory time is the wall-clock time of the call. -/
theorem C5_counterexample :
    parse_atcf_text [] iW nW agW (("A").toList) ≠
      parse_atcf_text [] iW nW agW (("B").toList) := by decide

/-- Claim C5 witness: time-independence applied to a concrete document
with a valid line. -/
theorem C5_witness :
    parse_atcf_text advDocTwo iW nW agW (("A").toList) =
      parse_atcf_text advDocTwo iW nW agW (("B").toList) :=
  C5_theorem advDocTwo iW nW agW _ _ (by decide)

/-- Claim C7 (corrected): a line is accepted only if field 2 is all
digits and parses under CPython's `%Y%m%d%H` strptime; that parse also
accepts 7-to-9-digit tokens (four-digit year with one- or two-digit
month, day and hour), so the exact ten-character YYYYMMDDHH shape of the
original claim is not required (see the counterexample). -/
theorem C7_theorem (line identifier storm_name agency : List Char) (f : Feature)
    (h : parseLine line identifier storm_name agency = some f) :
    pyIsDigit (field2 line) = true ∧
      (pyStrptimeYmdH (pyStrip (field2 line))).isSome = true := by
  unfold parseLine at h
  dsimp only at h
  split at h
  case isTrue hc =>
    refine ⟨hc.2.1, ?_⟩
    cases h6 : convertLat (pyStrip (getPart (List.map pyStrip (splitChar ',' line)) 6)) with
    | none => rw [h6] at h; simp at h
    | some la =>
      rw [h6] at h
      cases h7 : convertLon (pyStrip (getPart (List.map pyStrip (splitChar ',' line)) 7)) with
      | none => rw [h7] at h; simp at h
      | some lo =>
        rw [h7] at h
        cases h2 : pyStrptimeYmdH (pyStrip (getPart (List.map pyStrip (splitChar ',' line)) 2)) with
        | none => rw [h2] at h; simp at h
        | some p =>
          have hgoal : (pyStrptimeYmdH (pyStrip
              (getPart (List.map pyStrip (splitChar ',' line)) 2))).isSome = true := by
            rw [h2]; rfl
          exact hgoal
  case isFalse => exact absurd h (by simp)

/-- Claim C7 counterexample: the seven-digit date-hour token 2025615 is
not of the exact YYYYMMDDHH shape, yet its line is accepted and parsed as
2025-06-01T05. -/
theorem C7_counterexample :
    (parse_atcf_text (("A, B, 2025615, C, FIX, D, 150N, 0700W, 65, E").toList)
        iW nW agW nowW).map (fun f => (f.stormId, f.advisoryTime)) =
      [(some iW, ("2025-06-01T05:00:00Z").toList)] ∧
    field2 (("A, B, 2025615, C, FIX, D, 150N, 0700W, 65, E").toList) = ("2025615").toList ∧
    ¬ exactYmdH10 (("2025615").toList) :=
  ⟨by decide, by decide, fun hx => absurd hx.1 (by decide)⟩

/-- Claim C7 witness: the acceptance conditions extracted from a concrete
accepted line. -/
theorem C7_witness :
    pyIsDigit (field2 advLineOK) = true ∧
      (pyStrptimeYmdH (pyStrip (field2 advLineOK))).isSome = true :=
  C7_theorem advLineOK iW nW agW
    ((parseLine advLineOK iW nW agW).getD (noDataFeature nW agW nowW)) (by rfl)

/-- Claim C10 (corrected): the final character of an accepted latitude or
longitude token is stripped unconditionally and the value is negated iff
the token ends in S (latitude) or W (longitude); when the remaining
prefix is an unsigned digit string the resulting value is non-negative
for tokens not ending in the negating letter, but a signed prefix such as
-300 yields a negative value (see the counterexample). -/
theorem C10_theorem (s : List Char) (hd : (s.dropLast).all isAsciiDigit = true) :
    (∀ u : ℚ, convertLat s = some u →
      if s.getLast? = some ('S') then u ≤ 0 else 0 ≤ u) ∧
    (∀ v : ℚ, convertLon s = some v →
      if s.getLast? = some ('W') then v ≤ 0 else 0 ≤ v) :=
  ⟨fun u hu => convertLat_sign s u hd hu, fun v hv => convertLon_sign s v hd hv⟩

/-- Claim C10 counterexample: the latitude token -300N does not end in S,
yet the emitted latitude is -30, a negative value, because the stripped
prefix -300 carries its own sign. -/
theorem C10_counterexample :
    (parse_atcf_text (("A, B, 2025061512, C, FIX, D, -300N, 0700W, 65, E").toList)
        iW nW agW nowW).map (fun f => (f.stormId, f.lat)) =
      [(some iW, (-((300 : ℕ) : ℚ)) / 10)] ∧
    (("-300N").toList).getLast? = some ('N') ∧
    (-((300 : ℕ) : ℚ)) / 10 < 0 :=
  ⟨by rfl, by decide, by norm_num⟩

/-- Claim C10 witness: the sign rule applied to the token 300S. -/
theorem C10_witness :
    (∀ u : ℚ, convertLat (("300S").toList) = some u →
      if (("300S").toList).getLast? = some ('S') then u ≤ 0 else 0 ≤ u) ∧
    (∀ v : ℚ, convertLon (("300S").toList) = some v →
      if (("300S").toList).getLast? = some ('W') then v ≤ 0 else 0 ≤ v) :=
  C10_theorem (("300S").toList) (by decide)

/-- A concrete listing document with one storm entry. -/
def listingC1 : List Char :=
  ("<a href=\"storm.asp?storm_identifier=AL012025\">AL012025 - Tropical Storm ANDREA</a>").toList

/-- A transport oracle that serves only the listing document: every other
fetch (in particular each storm detail page) fails. -/
def fetchC1 : List Char → Option (List Char) :=
  fun url => if url = ciraBaseUrl then some listingC1 else none

/-- Whether a combined feature is a program-built feature carrying the
given storm identifier. -/
def featureForStorm (identifier : List Char) : OutFeature → Bool
  | .structured f => f.stormId = some identifier
  | .passthrough _ => false

/-- The display name of a program-built combined feature. -/
def outName : OutFeature → Option (List Char)
  | .structured f => some f.stormName
  | .passthrough _ => none

/-- Claim C1 (corrected): the collection is the CIRA per-storm
contributions followed by the NOAA and JTWC placeholder-branch features,
and a discovered storm contributes exactly one feature when its advisory
text is resolved and fetched — but zero features when the Resolver fails
(transport failure on either fetch, or no advisory link found); the
no-data feature arises only from an advisory document with no valid fix,
not from Resolver failure. -/
theorem C1_theorem (fetch : List Char → Option (List Char)) (now : List Char) :
    (combine_all_data fetch now).features =
      (((get_cira_active_storms fetch ciraBaseUrl).map
          (fun p => perStormFeatures fetch p.1 p.2 agencyCIRA now)).flatten).map
        OutFeature.structured
        ++ noaaBranchFeatures fetch now
        ++ [OutFeature.structured (jtwcMockFeature now)] ∧
    ∀ identifier storm_name : List Char,
      (perStormFeatures fetch identifier storm_name agencyCIRA now).length =
        match resolveStorm fetch identifier with
        | some _ => 1
        | none => 0 := by
  refine ⟨rfl, ?_⟩
  intro identifier storm_name
  rw [perStorm_resolve]
  cases h : resolveStorm fetch identifier with
  | none => rfl
  | some txt => exact parse_atcf_text_length txt identifier storm_name agencyCIRA now

/-- Claim C1 counterexample: one storm is discovered, but since its
detail-page fetch fails the final collection contains no feature for it
at all; the collection's only feature is the unconditional JTWC mock —
not the claimed exactly-one no-data feature per discovered storm. -/
theorem C1_counterexample :
    (get_cira_active_storms fetchC1 ciraBaseUrl).length = 1 ∧
    ((combine_all_data fetchC1 nowW).features.filter (featureForStorm iW)).length = 0 ∧
    (combine_all_data fetchC1 nowW).features.map outName =
      [some (("MOCK STORM JTWC").toList)] := by decide

/-- A concrete listing entry whose display text contains two separators. -/
def listingC6 : List Char :=
  ("<a href=\"storm.asp?storm_identifier=AL012025\">AA - BB - CC</a>").toList

/-- A transport oracle serving the two-separator listing document. -/
def fetchC6 : List Char → Option (List Char) :=
  fun url => if url = ciraBaseUrl then some listingC6 else none

/-- Claim C6 (corrected): the lazy pattern splits the matched text at the
earliest separator position admitting a same-line close — the first `-`
separator, not the final one — and the empty-name fallback is the
captured text before the separator, trimmed, not the full matched text. -/
theorem C6_theorem (r g2 g3 rest : List Char) (h : lazyTail r = some (g2, g3, rest)) :
    (sepAt (List.drop g2.length r) = some (g3, rest) ∧
      ∀ k, k < g2.length → sepAt (List.drop k r) = none) ∧
    extractName g2 g3 = (if pyStrip g3 = [] then pyStrip g2 else pyStrip g3) :=
  ⟨lazyTail_first r g2 g3 rest h, rfl⟩

/-- Claim C6 counterexample: on the display text AA - BB - CC, Discovery
extracts BB - CC (the text after the first separator), while the claim's
final-separator extraction yields CC. -/
theorem C6_counterexample :
    get_cira_active_storms fetchC6 ciraBaseUrl = [(iW, ("BB - CC").toList)] ∧
    finalDashName (("AA - BB - CC").toList) = ("CC").toList ∧
    ("BB - CC").toList ≠ ("CC").toList := by decide

/-- Claim C6 witness: the first-separator split on a concrete region. -/
theorem C6_witness :
    (sepAt (List.drop (("AA").toList).length (("AA - BB - CC</a>").toList)) =
        some ((("BB - CC").toList), ([] : List Char)) ∧
      ∀ k, k < (("AA").toList).length →
        sepAt (List.drop k (("AA - BB - CC</a>").toList)) = none) ∧
    extractName (("AA").toList) (("BB - CC").toList) =
      (if pyStrip (("BB - CC").toList) = [] then pyStrip (("AA").toList)
       else pyStrip (("BB - CC").toList)) :=
  C6_theorem (("AA - BB - CC</a>").toList) (("AA").toList) (("BB - CC").toList) [] (by decide)

/-- A concrete detail page holding a primary advisory link. -/
def htmlW : List Char :=
  ("<a href=\"/tc_realtime/products/2025/AL012025/atcf/AL012025_atcf.txt\">Latest Text File</a>").toList

/-- The advisory path captured from the concrete detail page. -/
def pathW : List Char :=
  ("/tc_realtime/products/2025/AL012025/atcf/AL012025_atcf.txt").toList

/-- The absolute advisory address resolved against the provider origin. -/
def advUrlW : List Char := ciraOrigin ++ pathW.dropWhile (fun c => c = '/')

/-- A transport oracle serving the concrete detail page and advisory file. -/
def fetchW : List Char → Option (List Char) :=
  fun url =>
    if url = stormPageUrl iW then some htmlW
    else if url = advUrlW then some advLineOK
    else none

/-- Claim C8 (confirmed): the primary advisory-link pattern is tried
first and wins when present; the fallback pattern is consulted only when
the primary is absent; and the matched relative path is resolved against
the provider's fixed origin before the advisory fetch. -/
theorem C8_theorem (html path : List Char) (fetch : List Char → Option (List Char))
    (identifier storm_name agency now : List Char) :
    (searchLink1 html = some path → resolveLink html = some path) ∧
    (searchLink1 html = none → resolveLink html = searchLink2 html) ∧
    (fetch (stormPageUrl identifier) = some html → resolveLink html = some path →
      perStormFeatures fetch identifier storm_name agency now =
        match fetch (ciraOrigin ++ path.dropWhile (fun c => c = '/')) with
        | none => []
        | some txt => parse_atcf_text txt identifier storm_name agency now) := by
  refine ⟨?_, ?_, ?_⟩
  · intro h
    unfold resolveLink
    rw [h]
  · intro h
    unfold resolveLink
    rw [h]
  · intro h1 h2
    unfold perStormFeatures
    rw [h1]
    dsimp only
    rw [h2]

/-- Claim C8 witness: the primary link is resolved and the advisory fetch
goes to the origin-resolved absolute address, on concrete inputs. -/
theorem C8_witness :
    resolveLink htmlW = some pathW ∧
    perStormFeatures fetchW iW nW agW nowW =
      match fetchW advUrlW with
      | none => []
      | some txt => parse_atcf_text txt iW nW agW nowW :=
  ⟨(C8_theorem htmlW pathW fetchW iW nW agW nowW).1 (by decide),
   (C8_theorem htmlW pathW fetchW iW nW agW nowW).2.2 (by decide) (by decide)⟩

/-- Claim C9 (corrected): per-storm failures never abort the run and the
collection is always well-formed (its total-features count equals the
length of its feature sequence, and the features are the concatenation
of the independent branch contributions, the CIRA part itself a
concatenation of independent per-storm contributions); a failure to
fetch the listing document yields zero features from the discovery
pipeline and is not propagated — but the collection is not empty, since
the JTWC placeholder branch appends its mock feature unconditionally. -/
theorem C9_theorem (fetch : List Char → Option (List Char)) (now : List Char) :
    (combine_all_data fetch now).total_features =
      (combine_all_data fetch now).features.length ∧
    (combine_all_data fetch now).features =
      (((get_cira_active_storms fetch ciraBaseUrl).map
          (fun p => perStormFeatures fetch p.1 p.2 agencyCIRA now)).flatten).map
        OutFeature.structured
        ++ noaaBranchFeatures fetch now
        ++ [OutFeature.structured (jtwcMockFeature now)] ∧
    (fetch ciraBaseUrl = none →
      (combine_all_data fetch now).features =
        noaaBranchFeatures fetch now ++ [OutFeature.structured (jtwcMockFeature now)]) ∧
    (combine_all_data fetch now).features ≠ [] := by
  have h2 : (combine_all_data fetch now).features =
      ((scrape_cira_data fetch agencyCIRA now).map OutFeature.structured
        ++ noaaBranchFeatures fetch now)
        ++ [OutFeature.structured (jtwcMockFeature now)] := rfl
  refine ⟨rfl, rfl, ?_, ?_⟩
  · intro h
    have hs : scrape_cira_data fetch agencyCIRA now = [] := by
      unfold scrape_cira_data get_cira_active_storms
      rw [h]
      rfl
    rw [h2, hs]
    rfl
  · rw [h2]
    simp

/-- Claim C9 counterexample: with every fetch failing — in particular the
listing fetch — the collection is not the empty collection the claim
asserts: it still contains the JTWC placeholder branch's mock feature. -/
theorem C9_counterexample :
    (combine_all_data (fun _ => none) nowW).features.length = 1 ∧
    (combine_all_data (fun _ => none) nowW).features.map outName =
      [some (("MOCK STORM JTWC").toList)] := by decide

/-- Claim C9 witness: the theorem applied to the always-failing transport
oracle, every hypothesis discharged. -/
theorem C9_witness :
    (combine_all_data (fun _ => none) nowW).total_features =
      (combine_all_data (fun _ => none) nowW).features.length ∧
    (combine_all_data (fun _ => none) nowW).features =
      (((get_cira_active_storms (fun _ => none) ciraBaseUrl).map
          (fun p => perStormFeatures (fun _ => none) p.1 p.2 agencyCIRA nowW)).flatten).map
        OutFeature.structured
        ++ noaaBranchFeatures (fun _ => none) nowW
        ++ [OutFeature.structured (jtwcMockFeature nowW)] ∧
    ((fun _ : List Char => (none : Option (List Char))) ciraBaseUrl = none →
      (combine_all_data (fun _ => none) nowW).features =
        noaaBranchFeatures (fun _ => none) nowW
          ++ [OutFeature.structured (jtwcMockFeature nowW)]) ∧
    (combine_all_data (fun _ => none) nowW).features ≠ [] :=
  C9_theorem (fun _ => none) nowW
